import Mathlib

/-!
# Verification of the indicator/signal engine of `streamlit-app.py`

This file embeds the technical-indicator calculator and the rule-based
signal classifier of `get_trading_signals` (src/streamlit-app.py, lines
68-114) into Lean and proves properties of the embedding.

Modelling conventions:
* Price values are rationals (`ℚ`) standing for the floats of the source;
  the properties at stake (definedness, window alignment, exact saturation
  values, signal selection) are rounding-independent.
* A pandas `Series` with possible `NaN` entries is a `List (Option ℚ)`;
  `none` stands for `NaN` (a missing value).  The input `Close` column is
  assumed clean (no `NaN`), hence a plain `List ℚ`.
* Float division is total; the IEEE special cases that the source relies
  on are made explicit: `g / 0 = +inf` for `g > 0` (so `RSI = 100 -
  100/(1 + inf) = 100`) and `0 / 0 = NaN` (so `RSI` is `NaN`).  See
  `rsiAt`.
* A raised Python exception is modelled as an `Except` error value.  The
  only statement of `get_trading_signals` that can raise on a clean input
  frame is `df['Close'].iloc[-1]` (an `IndexError` on an empty frame),
  modelled as the error case of `getTradingSignals`.
-/

/-- Embedding of `df['Close'].rolling(window=n).mean()` (lines 72-74, 78-79):
value at `i` is the mean of the `n` trailing entries once `n` entries
exist (pandas default `min_periods = window`), `NaN` before that. -/
def rollingMean (n : ℕ) (xs : List ℚ) : List (Option ℚ) :=
  (List.range xs.length).map (fun i =>
    if n ≤ i + 1 then some ((((xs.take (i + 1)).drop (i + 1 - n)).sum) / (n : ℚ)) else none)

/-- Tail of `df['Close'].diff()`: successive differences against `prev`. -/
def diffAux (prev : ℚ) : List ℚ → List (Option ℚ)
  | [] => []
  | x :: xs => some (x - prev) :: diffAux x xs

/-- Embedding of `df['Close'].diff()` (line 77): first entry `NaN`, then
`close[i] - close[i-1]`. -/
def deltaL : List ℚ → List (Option ℚ)
  | [] => []
  | x :: xs => none :: diffAux x xs

/-- Embedding of `delta.where(delta > 0, 0)` (line 78).  pandas `where` keeps an entry
only where the condition holds; `NaN > 0` is `False`, so the undefined
first delta is replaced by `0` (not kept as `NaN`). -/
def rawGain (xs : List ℚ) : List ℚ :=
  (deltaL xs).map (fun d =>
    match d with
    | some v => if 0 < v then v else 0
    | none => 0)

/-- Embedding of `-delta.where(delta < 0, 0)` (line 79): `-delta` where the delta is
negative, `0` elsewhere (including the `NaN` first delta). -/
def rawLoss (xs : List ℚ) : List ℚ :=
  (deltaL xs).map (fun d =>
    match d with
    | some v => if v < 0 then -v else 0
    | none => 0)

/-- The `gain` series of line 78: 14-point rolling mean of the clipped deltas. -/
def avgGainL (xs : List ℚ) : List (Option ℚ) :=
  rollingMean 14 (rawGain xs)

/-- The `loss` series of line 79: 14-point rolling mean of the clipped negated deltas. -/
def avgLossL (xs : List ℚ) : List (Option ℚ) :=
  rollingMean 14 (rawLoss xs)

/-- Entry `i` of a possibly-`NaN` column: `none` when the index is out of
range or the stored entry is `NaN`. -/
def valueAt (col : List (Option ℚ)) (i : ℕ) : Option ℚ :=
  (col[i]?).join

/-- One entry of `rs = gain / loss; RSI = 100 - 100 / (1 + rs)`
(lines 80-81) under IEEE float division: if either average is `NaN` the
result is `NaN`; `avgLoss = 0` with `avgGain > 0` gives `rs = +inf` and
`RSI = 100`; `0 / 0` is `NaN`.  (`avgLoss < 0` never occurs: it is a mean
of non-negative clipped values.) -/
def rsiAt : Option ℚ → Option ℚ → Option ℚ
  | some g, some l =>
      if l = 0 then (if g = 0 then none else some 100)
      else some (100 - 100 / (1 + g / l))
  | _, _ => none

/-- The `df['RSI']` column (lines 77-81), entry-wise from the two rolling means. -/
def rsiL (xs : List ℚ) : List (Option ℚ) :=
  (List.range xs.length).map (fun i => rsiAt (valueAt (avgGainL xs) i) (valueAt (avgLossL xs) i))

/-- Running part of `ewm(span, adjust=False).mean()`: each new value is
`(1 - a) * previous + a * x`. -/
def emaFrom (a y : ℚ) : List ℚ → List ℚ
  | [] => []
  | x :: xs => ((1 - a) * y + a * x) :: emaFrom a ((1 - a) * y + a * x) xs

/-- Embedding of `s.ewm(span, adjust=False).mean()` with `a = 2 / (span + 1)`
(lines 84-85, 87): seeded at the first observation, recursive after. -/
def emaL (a : ℚ) : List ℚ → List ℚ
  | [] => []
  | x :: xs => x :: emaFrom a x xs

/-- Embedding of `df['MACD'] = exp1 - exp2` (lines 84-86): EMA span 12 minus EMA span
26 of `close`, entry-wise. -/
def macdL (xs : List ℚ) : List ℚ :=
  List.zipWith (fun u v => u - v) (emaL (2 / (12 + 1)) xs) (emaL (2 / (26 + 1)) xs)

/-- The `df['Signal_Line']` column (line 87): EMA span 9 of the MACD column. -/
def signalL (xs : List ℚ) : List ℚ :=
  emaL (2 / (9 + 1)) (macdL xs)

/-- The six derived columns the calculator returns (line 114). -/
structure Derived where
  ma20 : List (Option ℚ)
  ma50 : List (Option ℚ)
  ma200 : List (Option ℚ)
  rsi : List (Option ℚ)
  macd : List (Option ℚ)
  signalLine : List (Option ℚ)
deriving Repr, DecidableEq

/-- The indicator calculator (lines 69-87): all six derived columns of
`get_trading_signals`.  MACD and the signal line contain no `NaN`, so
those columns are total lists wrapped in `some`. -/
def computeIndicators (close : List ℚ) : Derived where
  ma20 := rollingMean 20 close
  ma50 := rollingMean 50 close
  ma200 := rollingMean 200 close
  rsi := rsiL close
  macd := (macdL close).map some
  signalLine := (signalL close).map some

/-- One emitted signal (lines 100, 102, 105, 107, 110, 112); the
constructor stores the RSI value interpolated into the rationale text. -/
inductive Signal where
  | bullish : Signal
  | bearish : Signal
  | overbought : ℚ → Signal
  | oversold : ℚ → Signal
  | macdBullish : Signal
  | macdBearish : Signal
deriving Repr, DecidableEq

/-- The label text of each signal as written in the source. -/
def Signal.label : Signal → String
  | .bullish => "🟢 Bullish"
  | .bearish => "🔴 Bearish"
  | .overbought _ => "⚠️ Overbought"
  | .oversold _ => "⚠️ Oversold"
  | .macdBullish => "📈 MACD Bullish"
  | .macdBearish => "📉 MACD Bearish"

/-- A float `>` comparison where either operand may be `NaN`: any
comparison against `NaN` is `False`. -/
def optGt : Option ℚ → Option ℚ → Bool
  | some a, some b => decide (b < a)
  | _, _ => false

/-- Lines 99-102: `if current_price > ma20 and current_price > ma50`.
An undefined moving average fails the conjunction. -/
def trendSignal (price : ℚ) (ma20 ma50 : Option ℚ) : List Signal :=
  if optGt (some price) ma20 && optGt (some price) ma50 then [.bullish] else [.bearish]

/-- Lines 104-107: `if rsi > 70 ... elif rsi < 30 ...`; a `NaN` RSI fails
both comparisons and nothing is appended. -/
def momentumSignal : Option ℚ → List Signal
  | none => []
  | some r => if 70 < r then [.overbought r] else if r < 30 then [.oversold r] else []

/-- Lines 109-112: `if macd > signal_line`. -/
def macdSignal (macd sl : Option ℚ) : List Signal :=
  if optGt macd sl then [.macdBullish] else [.macdBearish]

/-- Lines 98-112: the signals appended in source order to the `signals`
list, from the latest value of each column. -/
def genSignals (price : ℚ) (ma20 ma50 rsi macd sl : Option ℚ) : List Signal :=
  trendSignal price ma20 ma50 ++ momentumSignal rsi ++ macdSignal macd sl

/-- The one failure of `get_trading_signals` on a clean input frame:
`df['Close'].iloc[-1]` raises on an empty frame (the spec's
`EmptyInputError`). -/
inductive CalcError where
  | emptyInput : CalcError
deriving Repr, DecidableEq

/-- The latest entry of a derived column (`iloc[-1]`, lines 92-96):
`none` when the column is empty or its last entry is `NaN`. -/
def lastOpt (col : List (Option ℚ)) : Option ℚ :=
  (col.getLast?).join

/-- `get_trading_signals` (lines 68-114): reading `df['Close'].iloc[-1]`
fails on an empty frame; otherwise the signal list and the six derived
columns are returned. -/
def getTradingSignals (close : List ℚ) : Except CalcError (List Signal × Derived) :=
  match close.getLast? with
  | none => .error .emptyInput
  | some price =>
      .ok (genSignals price (lastOpt (computeIndicators close).ma20)
            (lastOpt (computeIndicators close).ma50)
            (lastOpt (computeIndicators close).rsi)
            (lastOpt (computeIndicators close).macd)
            (lastOpt (computeIndicators close).signalLine),
          computeIndicators close)

/-- The specification's characterisation of a recursive EMA seeded at the
first observation: same length, same first entry, and each later entry is
`(1 - a) * previous + a * current input`. -/
def isEMA (a : ℚ) (x y : List ℚ) : Prop :=
  y.length = x.length ∧ y[0]? = x[0]? ∧
    ∀ i v w, y[i]? = some v → x[i + 1]? = some w → y[i + 1]? = some ((1 - a) * v + a * w)

/-- Trend-slot signals. -/
def isTrend : Signal → Bool
  | .bullish => true
  | .bearish => true
  | _ => false

/-- Momentum-slot signals. -/
def isMomentum : Signal → Bool
  | .overbought _ => true
  | .oversold _ => true
  | _ => false

/-- MACD-crossover-slot signals. -/
def isMacdSig : Signal → Bool
  | .macdBullish => true
  | .macdBearish => true
  | _ => false

/-! ## General lemmas about the embedded operations -/

lemma length_rollingMean (n : ℕ) (xs : List ℚ) : (rollingMean n xs).length = xs.length := by
  simp [rollingMean]

lemma valueAt_of_length_le (col : List (Option ℚ)) (i : ℕ) (h : col.length ≤ i) :
    valueAt col i = none := by
  simp [valueAt, List.getElem?_eq_none h]

lemma sum_eq_sum_getD (l : List ℚ) : l.sum = ∑ k ∈ Finset.range l.length, l.getD k 0 := by
  induction l with
  | nil => simp
  | cons x xs ih =>
      rw [List.sum_cons, List.length_cons, Finset.sum_range_succ']
      simp only [List.getD_cons_succ, List.getD_cons_zero]
      rw [← ih, add_comm]

lemma window_sum (xs : List ℚ) (n i : ℕ) (hn : n ≤ i + 1) (hi : i < xs.length) :
    (((xs.take (i + 1)).drop (i + 1 - n)).sum) =
      ∑ k ∈ Finset.range n, xs.getD (i + 1 - n + k) 0 := by
  have hlen : ((xs.take (i + 1)).drop (i + 1 - n)).length = n := by
    rw [List.length_drop, List.length_take]
    omega
  rw [sum_eq_sum_getD, hlen]
  refine Finset.sum_congr rfl (fun k hk => ?_)
  rw [Finset.mem_range] at hk
  rw [List.getD_eq_getElem?_getD, List.getD_eq_getElem?_getD, List.getElem?_drop,
    List.getElem?_take_of_lt (by omega)]

lemma valueAt_rollingMean (n : ℕ) (xs : List ℚ) (i : ℕ) (hi : i < xs.length) :
    valueAt (rollingMean n xs) i =
      if n ≤ i + 1 then some ((((xs.take (i + 1)).drop (i + 1 - n)).sum) / (n : ℚ))
      else none := by
  unfold valueAt rollingMean
  rw [List.getElem?_map, List.getElem?_range hi]
  by_cases h : n ≤ i + 1 <;> simp [h]

lemma valueAt_rollingMean_spec (n : ℕ) (xs : List ℚ) (i : ℕ) (hi : i < xs.length) :
    valueAt (rollingMean n xs) i =
      if n ≤ i + 1 then some ((∑ k ∈ Finset.range n, xs.getD (i + 1 - n + k) 0) / (n : ℚ))
      else none := by
  rw [valueAt_rollingMean n xs i hi]
  by_cases h : n ≤ i + 1
  · rw [if_pos h, if_pos h, window_sum xs n i h hi]
  · rw [if_neg h, if_neg h]

lemma rollingMean_nonneg (n : ℕ) (xs : List ℚ) (i : ℕ) (v : ℚ)
    (hv : valueAt (rollingMean n xs) i = some v) (hxs : ∀ x ∈ xs, 0 ≤ x) : 0 ≤ v := by
  have hi : i < xs.length := by
    by_contra h
    rw [valueAt_of_length_le _ _ (by rw [length_rollingMean]; omega)] at hv
    exact Option.noConfusion hv
  rw [valueAt_rollingMean n xs i hi] at hv
  by_cases h : n ≤ i + 1
  · rw [if_pos h, Option.some.injEq] at hv
    have hsum : 0 ≤ (((xs.take (i + 1)).drop (i + 1 - n)).sum) :=
      List.sum_nonneg (fun x hx => hxs x (List.take_subset _ _ (List.drop_subset _ _ hx)))
    rw [← hv]
    positivity
  · rw [if_neg h] at hv
    exact Option.noConfusion hv

lemma rollingMean_isSome_iff (n : ℕ) (xs : List ℚ) (i : ℕ) (hi : i < xs.length) :
    (valueAt (rollingMean n xs) i).isSome = true ↔ n ≤ i + 1 := by
  rw [valueAt_rollingMean n xs i hi]
  by_cases h : n ≤ i + 1 <;> simp [h]

lemma length_diffAux (prev : ℚ) (xs : List ℚ) : (diffAux prev xs).length = xs.length := by
  induction xs generalizing prev with
  | nil => rfl
  | cons x xs ih => simp [diffAux, ih]

lemma length_deltaL (xs : List ℚ) : (deltaL xs).length = xs.length := by
  cases xs <;> simp [deltaL, length_diffAux]

lemma length_rawGain (xs : List ℚ) : (rawGain xs).length = xs.length := by
  simp [rawGain, length_deltaL]

lemma length_rawLoss (xs : List ℚ) : (rawLoss xs).length = xs.length := by
  simp [rawLoss, length_deltaL]

lemma rawGain_nonneg (xs : List ℚ) : ∀ x ∈ rawGain xs, 0 ≤ x := by
  intro x hx
  rw [rawGain, List.mem_map] at hx
  obtain ⟨d, _, hd⟩ := hx
  rcases d with _ | v
  · simp at hd; linarith
  · by_cases h : 0 < v <;> simp [h] at hd <;> linarith

lemma rawLoss_nonneg (xs : List ℚ) : ∀ x ∈ rawLoss xs, 0 ≤ x := by
  intro x hx
  rw [rawLoss, List.mem_map] at hx
  obtain ⟨d, _, hd⟩ := hx
  rcases d with _ | v
  · simp at hd; linarith
  · by_cases h : v < 0 <;> simp [h] at hd <;> linarith

lemma length_avgGainL (xs : List ℚ) : (avgGainL xs).length = xs.length := by
  simp [avgGainL, length_rollingMean, length_rawGain]

lemma length_avgLossL (xs : List ℚ) : (avgLossL xs).length = xs.length := by
  simp [avgLossL, length_rollingMean, length_rawLoss]

lemma length_rsiL (xs : List ℚ) : (rsiL xs).length = xs.length := by
  simp [rsiL]

lemma valueAt_rsiL (xs : List ℚ) (i : ℕ) (hi : i < xs.length) :
    valueAt (rsiL xs) i = rsiAt (valueAt (avgGainL xs) i) (valueAt (avgLossL xs) i) := by
  unfold valueAt rsiL
  rw [List.getElem?_map, List.getElem?_range hi]
  rfl

lemma length_emaFrom (a y : ℚ) (xs : List ℚ) : (emaFrom a y xs).length = xs.length := by
  induction xs generalizing y with
  | nil => rfl
  | cons x xs ih => simp [emaFrom, ih]

lemma length_emaL (a : ℚ) (xs : List ℚ) : (emaL a xs).length = xs.length := by
  cases xs <;> simp [emaL, length_emaFrom]

lemma emaL_head (a : ℚ) (xs : List ℚ) : (emaL a xs)[0]? = xs[0]? := by
  cases xs <;> simp [emaL]

lemma emaFrom_rec (a : ℚ) (xs : List ℚ) : ∀ (y : ℚ) (i : ℕ) (v w : ℚ),
    (y :: emaFrom a y xs)[i]? = some v → xs[i]? = some w →
    (emaFrom a y xs)[i]? = some ((1 - a) * v + a * w) := by
  induction xs with
  | nil =>
      intro y i v w h1 h2
      simp at h2
  | cons x xs ih =>
      intro y i v w h1 h2
      cases i with
      | zero =>
          simp only [List.getElem?_cons_zero, Option.some.injEq] at h1 h2
          subst h1; subst h2
          simp [emaFrom]
      | succ j =>
          rw [List.getElem?_cons_succ] at h1 h2
          rw [emaFrom] at h1 ⊢
          rw [List.getElem?_cons_succ]
          exact ih _ j v w h1 h2

lemma emaL_rec (a : ℚ) (xs : List ℚ) : ∀ (i : ℕ) (v w : ℚ),
    (emaL a xs)[i]? = some v → xs[i + 1]? = some w →
    (emaL a xs)[i + 1]? = some ((1 - a) * v + a * w) := by
  cases xs with
  | nil =>
      intro i v w h1 h2
      simp [emaL] at h1
  | cons x xs =>
      intro i v w h1 h2
      rw [List.getElem?_cons_succ] at h2
      rw [emaL] at h1 ⊢
      rw [List.getElem?_cons_succ]
      exact emaFrom_rec a xs x i v w h1 h2

lemma isEMA_emaL (a : ℚ) (xs : List ℚ) : isEMA a xs (emaL a xs) :=
  ⟨length_emaL a xs, emaL_head a xs, emaL_rec a xs⟩

lemma length_macdL (xs : List ℚ) : (macdL xs).length = xs.length := by
  simp [macdL, length_emaL]

lemma length_signalL (xs : List ℚ) : (signalL xs).length = xs.length := by
  simp [signalL, length_emaL, length_macdL]

lemma macdL_getElem (xs : List ℚ) (i : ℕ) (hi : i < xs.length) :
    (macdL xs)[i]? =
      some ((emaL (2 / (12 + 1)) xs).getD i 0 - (emaL (2 / (26 + 1)) xs).getD i 0) := by
  have h1 : i < (emaL (2 / (12 + 1)) xs).length := by rw [length_emaL]; exact hi
  have h2 : i < (emaL (2 / (26 + 1)) xs).length := by rw [length_emaL]; exact hi
  rw [macdL, List.getElem?_zipWith, List.getElem?_eq_getElem h1, List.getElem?_eq_getElem h2]
  simp [List.getD_eq_getElem?_getD, List.getElem?_eq_getElem, h1, h2]

lemma valueAt_map_some (xs : List ℚ) (i : ℕ) (hi : i < xs.length) :
    valueAt (xs.map some) i = some (xs.getD i 0) := by
  unfold valueAt
  rw [List.getElem?_map, List.getElem?_eq_getElem hi]
  simp [List.getD_eq_getElem?_getD, List.getElem?_eq_getElem hi]

/-! ## The claims -/

/-- C1: for every close series and every window `n ∈ {20, 50, 200}`, the
moving-average column `MA_n` is defined at index `i` iff `i ≥ n - 1`, and
where defined its value is the arithmetic mean of `close[i-n+1 .. i]`;
it is undefined at all earlier indices. -/
theorem C1_ma_window_mean (close : List ℚ) (i : ℕ) (hi : i < close.length) :
    (valueAt ((computeIndicators close).ma20) i =
      if 20 - 1 ≤ i then
        some ((∑ k ∈ Finset.range 20, close.getD (i + 1 - 20 + k) 0) / (20 : ℚ)) else none)
  ∧ (valueAt ((computeIndicators close).ma50) i =
      if 50 - 1 ≤ i then
        some ((∑ k ∈ Finset.range 50, close.getD (i + 1 - 50 + k) 0) / (50 : ℚ)) else none)
  ∧ (valueAt ((computeIndicators close).ma200) i =
      if 200 - 1 ≤ i then
        some ((∑ k ∈ Finset.range 200, close.getD (i + 1 - 200 + k) 0) / (200 : ℚ)) else none) := by
  refine ⟨?_, ?_, ?_⟩ <;>
  · show valueAt (rollingMean _ close) i = _
    rw [valueAt_rollingMean_spec _ close i hi]
    exact if_congr (by omega) rfl rfl

/-- Witness for C1 at a concrete 20-point series and index 19. -/
theorem C1_ma_window_mean_witness :
    (valueAt ((computeIndicators (List.replicate 20 (1 : ℚ))).ma20) 19 =
      if 20 - 1 ≤ 19 then
        some ((∑ k ∈ Finset.range 20, (List.replicate 20 (1 : ℚ)).getD (19 + 1 - 20 + k) 0) /
          (20 : ℚ)) else none)
  ∧ (valueAt ((computeIndicators (List.replicate 20 (1 : ℚ))).ma50) 19 =
      if 50 - 1 ≤ 19 then
        some ((∑ k ∈ Finset.range 50, (List.replicate 20 (1 : ℚ)).getD (19 + 1 - 50 + k) 0) /
          (50 : ℚ)) else none)
  ∧ (valueAt ((computeIndicators (List.replicate 20 (1 : ℚ))).ma200) 19 =
      if 200 - 1 ≤ 19 then
        some ((∑ k ∈ Finset.range 200, (List.replicate 20 (1 : ℚ)).getD (19 + 1 - 200 + k) 0) /
          (200 : ℚ)) else none) :=
  C1_ma_window_mean (List.replicate 20 (1 : ℚ)) 19 (by norm_num)

/-- C5: for every non-empty close series of length `N`, each of the six
derived columns has exactly `N` entries, index-aligned with the input. -/
theorem C5_column_lengths (close : List ℚ) (_h : close ≠ []) :
    (computeIndicators close).ma20.length = close.length
  ∧ (computeIndicators close).ma50.length = close.length
  ∧ (computeIndicators close).ma200.length = close.length
  ∧ (computeIndicators close).rsi.length = close.length
  ∧ (computeIndicators close).macd.length = close.length
  ∧ (computeIndicators close).signalLine.length = close.length := by
  refine ⟨?_, ?_, ?_, ?_, ?_, ?_⟩ <;>
    simp [computeIndicators, length_rollingMean, length_rsiL, length_macdL, length_signalL]

/-- Witness for C5 at a concrete 3-point series. -/
theorem C5_column_lengths_witness :
    (computeIndicators [(1 : ℚ), 2, 3]).ma20.length = ([(1 : ℚ), 2, 3]).length
  ∧ (computeIndicators [(1 : ℚ), 2, 3]).ma50.length = ([(1 : ℚ), 2, 3]).length
  ∧ (computeIndicators [(1 : ℚ), 2, 3]).ma200.length = ([(1 : ℚ), 2, 3]).length
  ∧ (computeIndicators [(1 : ℚ), 2, 3]).rsi.length = ([(1 : ℚ), 2, 3]).length
  ∧ (computeIndicators [(1 : ℚ), 2, 3]).macd.length = ([(1 : ℚ), 2, 3]).length
  ∧ (computeIndicators [(1 : ℚ), 2, 3]).signalLine.length = ([(1 : ℚ), 2, 3]).length :=
  C5_column_lengths [(1 : ℚ), 2, 3] (by simp)

/-- C6: the computation fails, with the empty-input error, exactly on the
empty close series; every non-empty series yields a result. -/
theorem C6_empty_input_error (close : List ℚ) :
    (getTradingSignals close = Except.error CalcError.emptyInput ↔ close = [])
  ∧ ((∃ out, getTradingSignals close = Except.ok out) ↔ close ≠ []) := by
  cases close with
  | nil => simp [getTradingSignals]
  | cons x xs =>
      rcases ho : (x :: xs).getLast? with _ | v
      · simp at ho
      · simp [getTradingSignals, ho]

/-- C4: for every non-empty close series, MACD and the signal line are
defined at every index with no warm-up gap; the two close EMAs (spans 12
and 26) and the signal-line EMA over the MACD column (span 9) are each
seeded at the first observed value and obey
`EMA[i] = (1 - a) * EMA[i-1] + a * x[i]` with `a = 2 / (span + 1)`, and
`MACD[i]` is their difference. -/
theorem C4_ema_total (close : List ℚ) (_h : close ≠ []) :
    (∀ i, i < close.length →
      valueAt ((computeIndicators close).macd) i =
          some ((emaL (2 / (12 + 1)) close).getD i 0 - (emaL (2 / (26 + 1)) close).getD i 0)
      ∧ valueAt ((computeIndicators close).signalLine) i =
          some ((emaL (2 / (9 + 1)) (macdL close)).getD i 0))
  ∧ isEMA (2 / (12 + 1)) close (emaL (2 / (12 + 1)) close)
  ∧ isEMA (2 / (26 + 1)) close (emaL (2 / (26 + 1)) close)
  ∧ isEMA (2 / (9 + 1)) (macdL close) (emaL (2 / (9 + 1)) (macdL close)) := by
  refine ⟨fun i hi => ⟨?_, ?_⟩, isEMA_emaL _ _, isEMA_emaL _ _, isEMA_emaL _ _⟩
  · show valueAt ((macdL close).map some) i = _
    rw [valueAt_map_some _ _ (by rw [length_macdL]; exact hi),
      List.getD_eq_getElem?_getD, macdL_getElem close i hi]
    rfl
  · show valueAt ((signalL close).map some) i = _
    rw [valueAt_map_some _ _ (by rw [length_signalL]; exact hi)]
    rfl

/-- Witness for C4 at the concrete series `[1, 2]`. -/
theorem C4_ema_total_witness :
    (∀ i, i < ([(1 : ℚ), 2]).length →
      valueAt ((computeIndicators [(1 : ℚ), 2]).macd) i =
          some ((emaL (2 / (12 + 1)) [(1 : ℚ), 2]).getD i 0 -
            (emaL (2 / (26 + 1)) [(1 : ℚ), 2]).getD i 0)
      ∧ valueAt ((computeIndicators [(1 : ℚ), 2]).signalLine) i =
          some ((emaL (2 / (9 + 1)) (macdL [(1 : ℚ), 2])).getD i 0))
  ∧ isEMA (2 / (12 + 1)) [(1 : ℚ), 2] (emaL (2 / (12 + 1)) [(1 : ℚ), 2])
  ∧ isEMA (2 / (26 + 1)) [(1 : ℚ), 2] (emaL (2 / (26 + 1)) [(1 : ℚ), 2])
  ∧ isEMA (2 / (9 + 1)) (macdL [(1 : ℚ), 2]) (emaL (2 / (9 + 1)) (macdL [(1 : ℚ), 2])) :=
  C4_ema_total [(1 : ℚ), 2] (by simp)

lemma optGt_some_iff (p : ℚ) (o : Option ℚ) :
    optGt (some p) o = true ↔ ∃ a, o = some a ∧ a < p := by
  cases o <;> simp [optGt]

lemma filter_isTrend_momentum (rsi : Option ℚ) : (momentumSignal rsi).filter isTrend = [] := by
  rcases rsi with _ | r
  · rfl
  · by_cases h1 : 70 < r
    · simp [momentumSignal, h1, isTrend]
    · by_cases h2 : r < 30 <;> simp [momentumSignal, h1, h2, isTrend]

lemma filter_isTrend_macd (m s : Option ℚ) : (macdSignal m s).filter isTrend = [] := by
  by_cases h : optGt m s <;> simp [macdSignal, h, isTrend]

lemma filter_isMomentum_trend (p : ℚ) (ma20 ma50 : Option ℚ) :
    (trendSignal p ma20 ma50).filter isMomentum = [] := by
  by_cases h : (optGt (some p) ma20 && optGt (some p) ma50) = true <;>
    simp [trendSignal, h, isMomentum]

lemma filter_isMomentum_macd (m s : Option ℚ) : (macdSignal m s).filter isMomentum = [] := by
  by_cases h : optGt m s <;> simp [macdSignal, h, isMomentum]

lemma trendSignal_cases (p : ℚ) (ma20 ma50 : Option ℚ) :
    ∃ t, trendSignal p ma20 ma50 = [t] ∧ isTrend t = true := by
  by_cases h : (optGt (some p) ma20 && optGt (some p) ma50) = true
  · exact ⟨.bullish, by simp [trendSignal, h], rfl⟩
  · exact ⟨.bearish, by simp [trendSignal, h], rfl⟩

lemma macdSignal_cases (m s : Option ℚ) :
    ∃ z, macdSignal m s = [z] ∧ isMacdSig z = true := by
  by_cases h : optGt m s = true
  · exact ⟨.macdBullish, by simp [macdSignal, h], rfl⟩
  · exact ⟨.macdBearish, by simp [macdSignal, h], rfl⟩

/-- C7: the first emitted signal is always exactly one trend signal:
Bullish iff the latest close is strictly above both the latest MA20 and
the latest MA50 (an undefined MA fails the conjunction), Bearish in every
other case. -/
theorem C7_trend_signal (p : ℚ) (ma20 ma50 rsi macd sl : Option ℚ) :
    ((genSignals p ma20 ma50 rsi macd sl).head? = some Signal.bullish ↔
      ((∃ a, ma20 = some a ∧ a < p) ∧ (∃ b, ma50 = some b ∧ b < p)))
  ∧ ((genSignals p ma20 ma50 rsi macd sl).head? = some Signal.bullish ∨
      (genSignals p ma20 ma50 rsi macd sl).head? = some Signal.bearish)
  ∧ ((ma20 = none ∨ ma50 = none) →
      (genSignals p ma20 ma50 rsi macd sl).head? = some Signal.bearish)
  ∧ (∃ t, (genSignals p ma20 ma50 rsi macd sl).filter isTrend = [t] ∧
      (genSignals p ma20 ma50 rsi macd sl).head? = some t) := by
  by_cases h : (optGt (some p) ma20 && optGt (some p) ma50) = true
  · have hd : genSignals p ma20 ma50 rsi macd sl =
        Signal.bullish :: (momentumSignal rsi ++ macdSignal macd sl) := by
      simp [genSignals, trendSignal, h]
    have hiff : (∃ a, ma20 = some a ∧ a < p) ∧ (∃ b, ma50 = some b ∧ b < p) := by
      rw [Bool.and_eq_true] at h
      exact ⟨(optGt_some_iff p ma20).mp h.1, (optGt_some_iff p ma50).mp h.2⟩
    refine ⟨by simp [hd, hiff], Or.inl (by simp [hd]), fun hnone => ?_, ?_⟩
    · rcases hnone with h20 | h50 <;> rw [Bool.and_eq_true] at h
      · rw [h20] at h; exact absurd h.1 (by simp [optGt])
      · rw [h50] at h; exact absurd h.2 (by simp [optGt])
    · refine ⟨Signal.bullish, ?_, by simp [hd]⟩
      simp [hd, List.filter_append, filter_isTrend_momentum, filter_isTrend_macd, isTrend]
  · have hd : genSignals p ma20 ma50 rsi macd sl =
        Signal.bearish :: (momentumSignal rsi ++ macdSignal macd sl) := by
      simp [genSignals, trendSignal, h]
    have hiff : ¬ ((∃ a, ma20 = some a ∧ a < p) ∧ (∃ b, ma50 = some b ∧ b < p)) := by
      intro hc
      exact h (Bool.and_eq_true _ _ |>.mpr
        ⟨(optGt_some_iff p ma20).mpr hc.1, (optGt_some_iff p ma50).mpr hc.2⟩)
    refine ⟨by simp [hd, hiff], Or.inr (by simp [hd]), fun _ => by simp [hd], ?_⟩
    refine ⟨Signal.bearish, ?_, by simp [hd]⟩
    simp [hd, List.filter_append, filter_isTrend_momentum, filter_isTrend_macd, isTrend]

/-- C8: with a defined latest RSI value `r`, the momentum slot emits
exactly one Overbought signal when `r > 70`, exactly one Oversold signal
when `r < 30`, and nothing at all when `30 ≤ r ≤ 70`. -/
theorem C8_momentum_slot (p : ℚ) (ma20 ma50 macd sl : Option ℚ) (r : ℚ) :
    ((70 < r → (genSignals p ma20 ma50 (some r) macd sl).filter isMomentum =
        [Signal.overbought r])
  ∧ (r < 30 → (genSignals p ma20 ma50 (some r) macd sl).filter isMomentum =
        [Signal.oversold r])
  ∧ (30 ≤ r → r ≤ 70 → (genSignals p ma20 ma50 (some r) macd sl).filter isMomentum = [])) := by
  refine ⟨fun h70 => ?_, fun h30 => ?_, fun hlo hhi => ?_⟩ <;>
    simp only [genSignals, List.filter_append, filter_isMomentum_trend, filter_isMomentum_macd,
      List.nil_append, List.append_nil]
  · simp [momentumSignal, h70, isMomentum]
  · have : ¬ 70 < r := by linarith
    simp [momentumSignal, this, h30, isMomentum]
  · have h1 : ¬ 70 < r := by linarith
    have h2 : ¬ r < 30 := by linarith
    simp [momentumSignal, h1, h2]

/-- Witness for C8 at concrete inputs for each of the three regimes. -/
theorem C8_momentum_slot_witness :
    (genSignals 5 none none (some 80) (some 1) (some 0)).filter isMomentum =
      [Signal.overbought 80] :=
  (C8_momentum_slot 5 none none (some 1) (some 0) 80).1 (by norm_num)

/-- C10: with an undefined latest RSI no momentum signal is emitted and
exactly the trend and MACD signals remain; in general the classifier
returns 2 or 3 signals, the first a trend signal and the last a
MACD-crossover signal. -/
theorem C10_signal_shape (p : ℚ) (ma20 ma50 rsi macd sl : Option ℚ) :
    (rsi = none → ∃ t m, isTrend t = true ∧ isMacdSig m = true ∧
      genSignals p ma20 ma50 rsi macd sl = [t, m])
  ∧ ((genSignals p ma20 ma50 rsi macd sl).length = 2 ∨
      (genSignals p ma20 ma50 rsi macd sl).length = 3)
  ∧ (∃ t, (genSignals p ma20 ma50 rsi macd sl).head? = some t ∧ isTrend t = true)
  ∧ (∃ m, (genSignals p ma20 ma50 rsi macd sl).getLast? = some m ∧ isMacdSig m = true) := by
  obtain ⟨t, ht, htt⟩ := trendSignal_cases p ma20 ma50
  obtain ⟨z, hz, hzz⟩ := macdSignal_cases macd sl
  have hmom : momentumSignal rsi = [] ∨ ∃ r, momentumSignal rsi = [r] := by
    rcases rsi with _ | r
    · exact Or.inl rfl
    · by_cases h1 : 70 < r
      · exact Or.inr ⟨Signal.overbought r, by simp [momentumSignal, h1]⟩
      · by_cases h2 : r < 30
        · exact Or.inr ⟨Signal.oversold r, by simp [momentumSignal, h1, h2]⟩
        · exact Or.inl (by simp [momentumSignal, h1, h2])
  refine ⟨fun hnone => ⟨t, z, htt, hzz, ?_⟩, ?_, ?_, ?_⟩
  · subst hnone
    simp [genSignals, ht, hz, momentumSignal]
  · rcases hmom with hm | ⟨r, hm⟩
    · exact Or.inl (by simp [genSignals, ht, hz, hm])
    · exact Or.inr (by simp [genSignals, ht, hz, hm])
  · exact ⟨t, by simp [genSignals, ht], htt⟩
  · refine ⟨z, ?_, hzz⟩
    rw [genSignals, hz, List.getLast?_concat]

/-- Witness for C10 with an undefined RSI. -/
theorem C10_signal_shape_witness :
    ∃ t m, isTrend t = true ∧ isMacdSig m = true ∧
      genSignals 5 none none none (some 1) (some 0) = [t, m] :=
  (C10_signal_shape 5 none none none (some 1) (some 0)).1 rfl

lemma lt_length_of_valueAt_some (col : List (Option ℚ)) (i : ℕ) (r : ℚ)
    (h : valueAt col i = some r) : i < col.length := by
  by_contra hc
  rw [valueAt_of_length_le col i (by omega)] at h
  exact Option.noConfusion h

lemma valueAt_avgGainL (xs : List ℚ) (i : ℕ) (hi : i < xs.length) :
    valueAt (avgGainL xs) i =
      if 14 ≤ i + 1 then
        some ((((rawGain xs).take (i + 1)).drop (i + 1 - 14)).sum / (14 : ℚ)) else none :=
  valueAt_rollingMean 14 (rawGain xs) i (by rw [length_rawGain]; exact hi)

lemma valueAt_avgLossL (xs : List ℚ) (i : ℕ) (hi : i < xs.length) :
    valueAt (avgLossL xs) i =
      if 14 ≤ i + 1 then
        some ((((rawLoss xs).take (i + 1)).drop (i + 1 - 14)).sum / (14 : ℚ)) else none :=
  valueAt_rollingMean 14 (rawLoss xs) i (by rw [length_rawLoss]; exact hi)

lemma rsiAt_some_isSome (g l : ℚ) :
    (rsiAt (some g) (some l)).isSome = true ↔ ¬(g = 0 ∧ l = 0) := by
  by_cases hl : l = 0
  · by_cases hg : g = 0 <;> simp [rsiAt, hl, hg]
  · simp [rsiAt, hl]

/-- C2 (amended): where RSI is defined its value lies in `[0, 100]`;
when the 14-point average loss is `0` and the average gain is positive,
RSI is defined and equals exactly `100`; but when the average gain is
also `0` (for instance on a constant close series) the `0 / 0` is a
float `NaN` and RSI is undefined at that index rather than `100`. -/
theorem C2_rsi_bounds_saturation (close : List ℚ) (i : ℕ) :
    (∀ r, valueAt ((computeIndicators close).rsi) i = some r → 0 ≤ r ∧ r ≤ 100)
  ∧ (∀ g, valueAt (avgGainL close) i = some g → valueAt (avgLossL close) i = some 0 →
      ((g ≠ 0 → valueAt ((computeIndicators close).rsi) i = some 100)
     ∧ (g = 0 → valueAt ((computeIndicators close).rsi) i = none))) := by
  constructor
  · intro r hr
    have hi : i < close.length := by
      have hlt := lt_length_of_valueAt_some _ _ _ hr
      rwa [show (computeIndicators close).rsi = rsiL close from rfl, length_rsiL] at hlt
    rw [show (computeIndicators close).rsi = rsiL close from rfl,
      valueAt_rsiL close i hi] at hr
    rcases hg : valueAt (avgGainL close) i with _ | g
    · rw [hg] at hr; exact absurd hr (by simp [rsiAt])
    rcases hl : valueAt (avgLossL close) i with _ | l
    · rw [hg, hl] at hr; exact absurd hr (by simp [rsiAt])
    rw [hg, hl] at hr
    have hg0 : 0 ≤ g := rollingMean_nonneg 14 (rawGain close) i g hg (rawGain_nonneg close)
    have hl0 : 0 ≤ l := rollingMean_nonneg 14 (rawLoss close) i l hl (rawLoss_nonneg close)
    simp only [rsiAt] at hr
    by_cases hlz : l = 0
    · rw [if_pos hlz] at hr
      by_cases hgz : g = 0
      · rw [if_pos hgz] at hr; exact Option.noConfusion hr
      · rw [if_neg hgz, Option.some.injEq] at hr
        rw [← hr]; norm_num
    · rw [if_neg hlz, Option.some.injEq] at hr
      have hlpos : 0 < l := lt_of_le_of_ne hl0 (Ne.symm hlz)
      have hrs : 0 ≤ g / l := div_nonneg hg0 hl0
      have h1 : (1 : ℚ) ≤ 1 + g / l := by linarith
      have hb1 : 100 / (1 + g / l) ≤ 100 := div_le_self (by norm_num) h1
      have hb2 : 0 ≤ 100 / (1 + g / l) := div_nonneg (by norm_num) (by linarith)
      constructor <;> linarith
  · intro g hg hl
    have hi : i < close.length := by
      have hlt := lt_length_of_valueAt_some _ _ _ hg
      rwa [show (avgGainL close).length = close.length from length_avgGainL close] at hlt
    rw [show (computeIndicators close).rsi = rsiL close from rfl,
      valueAt_rsiL close i hi, hg, hl]
    constructor
    · intro hgz; simp [rsiAt, hgz]
    · intro hgz; simp [rsiAt, hgz]

lemma diffAux_const (c : ℚ) (n : ℕ) :
    diffAux c (List.replicate n c) = List.replicate n (some 0) := by
  induction n with
  | zero => rfl
  | succ m ih => simp [List.replicate_succ, diffAux, ih]

lemma rawGain_const (c : ℚ) (n : ℕ) :
    rawGain (List.replicate n c) = List.replicate n 0 := by
  cases n with
  | zero => rfl
  | succ m =>
      rw [List.replicate_succ]
      norm_num [rawGain, deltaL, diffAux_const, List.map_replicate, List.replicate_succ]

lemma rawLoss_const (c : ℚ) (n : ℕ) :
    rawLoss (List.replicate n c) = List.replicate n 0 := by
  cases n with
  | zero => rfl
  | succ m =>
      rw [List.replicate_succ]
      norm_num [rawLoss, deltaL, diffAux_const, List.map_replicate, List.replicate_succ]

/-- Counterexample to C2 as stated: on the constant 14-point series the
average loss at index 13 is `0`, yet RSI at index 13 is undefined (the
`0 / 0` of `gain / loss` is `NaN`), not `100`. -/
theorem C2_saturation_cex :
    valueAt (avgLossL (List.replicate 14 (10 : ℚ))) 13 = some 0
  ∧ valueAt ((computeIndicators (List.replicate 14 (10 : ℚ))).rsi) 13 = none := by
  have hloss : valueAt (avgLossL (List.replicate 14 (10 : ℚ))) 13 = some 0 := by
    rw [valueAt_avgLossL _ 13 (by norm_num), rawLoss_const]
    rw [List.take_of_length_le (by norm_num)]
    norm_num [List.sum_replicate]
  have hgain : valueAt (avgGainL (List.replicate 14 (10 : ℚ))) 13 = some 0 := by
    rw [valueAt_avgGainL _ 13 (by norm_num), rawGain_const]
    rw [List.take_of_length_le (by norm_num)]
    norm_num [List.sum_replicate]
  refine ⟨hloss, ?_⟩
  rw [show (computeIndicators (List.replicate 14 (10 : ℚ))).rsi =
      rsiL (List.replicate 14 (10 : ℚ)) from rfl,
    valueAt_rsiL _ 13 (by norm_num), hgain, hloss]
  simp [rsiAt]

/-- C3 (amended): RSI at index `i` is defined iff `i ≥ 13` and the two
14-point averages are not both `0`.  The first (undefined) delta is
replaced by `0` by the `where` clipping, so 14 observations already
exist at index 13 — one index earlier than the claimed `i ≥ 14` — and
even past warm-up RSI is undefined wherever `avgGain = avgLoss = 0`. -/
theorem C3_rsi_defined_iff (close : List ℚ) (i : ℕ) (hi : i < close.length) :
    ((valueAt ((computeIndicators close).rsi) i).isSome = true ↔
      (13 ≤ i ∧ ¬(valueAt (avgGainL close) i = some 0 ∧
        valueAt (avgLossL close) i = some 0))) := by
  rw [show (computeIndicators close).rsi = rsiL close from rfl, valueAt_rsiL close i hi,
    valueAt_avgGainL close i hi, valueAt_avgLossL close i hi]
  by_cases h13 : 14 ≤ i + 1
  · rw [if_pos h13, if_pos h13, rsiAt_some_isSome]
    have h13b : 13 ≤ i := by omega
    simp [h13b, not_and_or]
  · rw [if_neg h13, if_neg h13]
    have h13b : ¬ 13 ≤ i := by omega
    simp [rsiAt, h13b]

/-- Witness for C3 (amended) at a concrete series and index 13. -/
theorem C3_rsi_defined_iff_witness :
    ((valueAt ((computeIndicators ([0, 1, 0, 1, 0, 1, 0, 1, 0, 1, 0, 1, 0, 1] : List ℚ)).rsi)
        13).isSome = true ↔
      (13 ≤ 13 ∧ ¬(valueAt (avgGainL ([0, 1, 0, 1, 0, 1, 0, 1, 0, 1, 0, 1, 0, 1] : List ℚ))
          13 = some 0 ∧
        valueAt (avgLossL ([0, 1, 0, 1, 0, 1, 0, 1, 0, 1, 0, 1, 0, 1] : List ℚ))
          13 = some 0))) :=
  C3_rsi_defined_iff ([0, 1, 0, 1, 0, 1, 0, 1, 0, 1, 0, 1, 0, 1] : List ℚ) 13 (by norm_num)

/-- Counterexample to C3 as stated: on an alternating 14-point series
RSI is already defined at index 13, although `13 < 14`. -/
theorem C3_warmup_cex :
    ¬ 14 ≤ 13
  ∧ (valueAt ((computeIndicators ([0, 1, 0, 1, 0, 1, 0, 1, 0, 1, 0, 1, 0, 1] : List ℚ)).rsi)
      13).isSome = true := by
  refine ⟨by omega, ?_⟩
  rw [show (computeIndicators ([0, 1, 0, 1, 0, 1, 0, 1, 0, 1, 0, 1, 0, 1] : List ℚ)).rsi =
      rsiL ([0, 1, 0, 1, 0, 1, 0, 1, 0, 1, 0, 1, 0, 1] : List ℚ) from rfl,
    valueAt_rsiL _ 13 (by norm_num),
    valueAt_avgGainL _ 13 (by norm_num), valueAt_avgLossL _ 13 (by norm_num)]
  have hg : rawGain ([0, 1, 0, 1, 0, 1, 0, 1, 0, 1, 0, 1, 0, 1] : List ℚ) =
      [0, 1, 0, 1, 0, 1, 0, 1, 0, 1, 0, 1, 0, 1] := by
    norm_num [rawGain, deltaL, diffAux]
  have hl : rawLoss ([0, 1, 0, 1, 0, 1, 0, 1, 0, 1, 0, 1, 0, 1] : List ℚ) =
      [0, 0, 1, 0, 1, 0, 1, 0, 1, 0, 1, 0, 1, 0] := by
    norm_num [rawLoss, deltaL, diffAux]
  rw [hg, hl, List.take_of_length_le (by norm_num), List.take_of_length_le (by norm_num)]
  norm_num [rsiAt]

lemma emaL_singleton (a c : ℚ) : emaL a [c] = [c] := by
  simp [emaL, emaFrom]

/-- C9 (amended): on a one-point series every simple moving average is
undefined, RSI is undefined, MACD and the signal line are both defined
and equal `0` (the difference of the two seeded EMAs, not the close
value itself), and the classifier still succeeds, emitting the Bearish
default and the MACD-Bearish default. -/
theorem C9_length_one (c : ℚ) :
    (computeIndicators [c]).ma20 = [none]
  ∧ (computeIndicators [c]).ma50 = [none]
  ∧ (computeIndicators [c]).ma200 = [none]
  ∧ (computeIndicators [c]).rsi = [none]
  ∧ (computeIndicators [c]).macd = [some 0]
  ∧ (computeIndicators [c]).signalLine = [some 0]
  ∧ getTradingSignals [c] =
      Except.ok ([Signal.bearish, Signal.macdBearish], computeIndicators [c]) := by
  have hr1 : List.range 1 = [0] := rfl
  have h20 : (computeIndicators [c]).ma20 = [none] := by
    norm_num [computeIndicators, rollingMean, hr1]
  have h50 : (computeIndicators [c]).ma50 = [none] := by
    norm_num [computeIndicators, rollingMean, hr1]
  have h200 : (computeIndicators [c]).ma200 = [none] := by
    norm_num [computeIndicators, rollingMean, hr1]
  have hgnone : valueAt (avgGainL [c]) 0 = none := by
    rw [valueAt_avgGainL [c] 0 (by norm_num)]
    norm_num
  have hlnone : valueAt (avgLossL [c]) 0 = none := by
    rw [valueAt_avgLossL [c] 0 (by norm_num)]
    norm_num
  have hrsi : (computeIndicators [c]).rsi = [none] := by
    show rsiL [c] = [none]
    rw [rsiL, show List.range ([c] : List ℚ).length = [0] from rfl]
    simp [hgnone, hlnone, rsiAt]
  have hmacd0 : macdL [c] = [0] := by
    norm_num [macdL, emaL_singleton]
  have hmacd : (computeIndicators [c]).macd = [some 0] := by
    show (macdL [c]).map some = [some 0]
    rw [hmacd0]
    rfl
  have hsig : (computeIndicators [c]).signalLine = [some 0] := by
    show (signalL [c]).map some = [some 0]
    rw [signalL, hmacd0, emaL_singleton]
    rfl
  refine ⟨h20, h50, h200, hrsi, hmacd, hsig, ?_⟩
  rw [show getTradingSignals [c] =
      Except.ok (genSignals c (lastOpt (computeIndicators [c]).ma20)
        (lastOpt (computeIndicators [c]).ma50) (lastOpt (computeIndicators [c]).rsi)
        (lastOpt (computeIndicators [c]).macd) (lastOpt (computeIndicators [c]).signalLine),
        computeIndicators [c]) from rfl,
    h20, h50, hrsi, hmacd, hsig]
  norm_num [genSignals, trendSignal, momentumSignal, macdSignal, optGt, lastOpt]

/-- Counterexample to C9 as stated: for the one-point series `[5]` the
MACD value is `0`, which is not the single close value `5`. -/
theorem C9_macd_zero_cex :
    valueAt ((computeIndicators [(5 : ℚ)]).macd) 0 = some 0
  ∧ valueAt ((computeIndicators [(5 : ℚ)]).macd) 0 ≠ some ((5 : ℚ)) := by
  have h : valueAt ((computeIndicators [(5 : ℚ)]).macd) 0 = some 0 := by
    show valueAt ((macdL [(5 : ℚ)]).map some) 0 = some 0
    rw [show macdL [(5 : ℚ)] = [0] from by norm_num [macdL, emaL_singleton]]
    rfl
  refine ⟨h, ?_⟩
  rw [h]
  norm_num

example : deltaL [1, 3, 2] = [none, some 2, some (-1)] := by
  norm_num [deltaL, diffAux]

example : rawGain [1, 3, 2] = [0, 2, 0] := by
  norm_num [rawGain, deltaL, diffAux]

example : rollingMean 2 [1, 3, 2] = [none, some 2, some (5 / 2)] := by
  norm_num [rollingMean, List.range_succ]

example : emaL (1 / 2) [4, 8] = [4, 6] := by
  norm_num [emaL, emaFrom]

example : genSignals 5 (some 4) (some 3) (some 80) (some 1) (some 0) =
    [.bullish, .overbought 80, .macdBullish] := by
  norm_num [genSignals, trendSignal, momentumSignal, macdSignal, optGt]
